import Mathlib

/-!
Shallow embedding of the workflow-orchestration core of the
multi-agent content-generation system (files `agents/base_agent.py`,
`agents/orchestrator.py`, `models/data_models.py`).

Python dictionaries holding opaque stage payloads are modelled by the
inductive `Val`; machine floats measuring elapsed seconds are modelled
by exact rationals; `datetime.now()` readings are passed in explicitly
as rational clock parameters; raised exceptions are modelled with
`Except String`.
-/

/-- The `AgentType` enum of `models/data_models.py`. -/
inductive AgentType where
  | prompt_generator
  | image_generator
  | video_generator
  deriving DecidableEq, Repr

/-- Opaque JSON-like payload values stored in the `data` dictionaries of
agent responses and in compiled results. -/
inductive Val where
  | s : String → Val
  | q : ℚ → Val
  | b : Bool → Val
  | list : List Val → Val
  | dict : List (String × Val) → Val

/-- Python `d.get(key, default)` on a string-keyed dictionary. -/
def dictGet (d : List (String × Val)) (key : String) (dflt : Val) : Val :=
  match d.find? (fun x => x.1 == key) with
  | some x => x.2
  | none => dflt

/-- Rendering of an `Optional[str]` inside a Python f-string:
`None` prints as the four characters of the word None. -/
def optStr : Option String → String
  | none => "None"
  | some s => s

/-- The `AgentResponse` dataclass of `models/data_models.py`
(the spec calls it StageOutcome): success flag, payload dictionary,
optional error message, elapsed seconds, producing agent.
A payload of `None` and an empty dictionary behave identically under
`get`, so `data` is a (possibly empty) dictionary. -/
structure AgentResponse where
  success : Bool
  data : List (String × Val) := []
  error : Option String := none
  execution_time : ℚ := 0
  agent_type : Option AgentType := none

/-- Outcome of one call to the underlying `process` coroutine of an agent:
it either returns a response (possibly marked unsuccessful) or raises. -/
inductive ProcResult where
  | ok : AgentResponse → ProcResult
  | exn : String → ProcResult

/-- The retry loop of `BaseAgent.execute_with_retry`
(`agents/base_agent.py`).  `proc j` is the behaviour of the underlying
`process` call on attempt `j` (0-based) together with its wall-clock
duration; `clock` is the current wall-clock reading and `start` the
`time.time()` reading taken on entry.  `fuel` is the number of loop
iterations remaining (`maxRetries - attempt`).  Faithful control flow:
a response marked unsuccessful re-enters the loop with no sleep (the
backoff sleep sits inside the `except` handler in the source); a raised
failure on a non-final attempt sleeps `2 ^ attempt` time units; a raised
failure on the final attempt returns a failed response; falling out of
the loop returns the Max-retries-exceeded response. -/
def retryLoop (proc : Nat → ProcResult × ℚ) (ag : AgentType) (maxRetries : Nat)
    (start : ℚ) : Nat → Nat → ℚ → AgentResponse
  | _, 0, clock =>
      { success := false
        error := some "Max retries exceeded"
        execution_time := clock - start
        agent_type := some ag }
  | attempt, fuel + 1, clock =>
      match proc attempt with
      | (ProcResult.ok resp, dur) =>
          let resp1 : AgentResponse :=
            { resp with execution_time := clock + dur - start, agent_type := some ag }
          if resp1.success then resp1
          else retryLoop proc ag maxRetries start (attempt + 1) fuel (clock + dur)
      | (ProcResult.exn e, dur) =>
          if fuel = 0 then
            { success := false
              error := some ("Failed after " ++ toString maxRetries ++ " attempts: " ++ e)
              execution_time := clock + dur - start
              agent_type := some ag }
          else
            retryLoop proc ag maxRetries start (attempt + 1) fuel
              (clock + dur + 2 ^ attempt)

/-- `BaseAgent.execute_with_retry` (`agents/base_agent.py`): run the
attempt loop from attempt 0 with the wall clock at `start`. -/
def executeWithRetry (proc : Nat → ProcResult × ℚ) (ag : AgentType)
    (maxRetries : Nat) (start : ℚ) : AgentResponse :=
  retryLoop proc ag maxRetries start 0 maxRetries start

/-- A stage whose underlying call raises on the first `k` attempts and
then returns `okResp`; every attempt itself takes zero time. -/
def procRaiseThenOk (okResp : AgentResponse) (k : Nat) : Nat → ProcResult × ℚ :=
  fun j => if j < k then (ProcResult.exn "service unavailable", 0) else (ProcResult.ok okResp, 0)

/-- A stage whose underlying call returns the unsuccessful response
`failResp` (without raising) on the first `k` attempts and then returns
`okResp`; every attempt itself takes zero time. -/
def procFailThenOk (failResp okResp : AgentResponse) (k : Nat) : Nat → ProcResult × ℚ :=
  fun j => if j < k then (ProcResult.ok failResp, 0) else (ProcResult.ok okResp, 0)

/-- Total backoff slept by `fuel` consecutive raised failures starting
at attempt index `attempt`: `2 ^ attempt + ... + 2 ^ (attempt + fuel - 1)`. -/
def sleepSum : Nat → Nat → ℚ
  | _, 0 => 0
  | attempt, fuel + 1 => 2 ^ attempt + sleepSum (attempt + 1) fuel

/-- The compiled workflow-result dictionary built by
`AgentOrchestrator._compile_workflow_results`.  Keys that the source adds
only conditionally (per-stage payload sections) are `Option` fields, with
`none` meaning the key is absent from the dictionary; the error list is
present exactly when non-empty, so it is stored as a plain list. -/
structure WorkflowResult where
  success : Bool
  partial_success : Bool
  workflow_id : String
  timestamp : ℚ
  total_execution_time : ℚ
  agents_succeeded : Nat
  agents_failed : Nat
  generated_prompts : Option Val
  prompt_details : Option (Val × Val)
  generated_images : Option Val
  image_generation_stats : Option (Val × Val × Val)
  generated_video : Option Val
  video_details : Option Val
  errors : List String

/-- `AgentOrchestrator._compile_workflow_results`
(`agents/orchestrator.py`): merge the three stage responses into the
final result dictionary.  `now` is the `datetime.now()` reading taken
while building the dictionary. -/
def compileWorkflowResults (wid : String) (p i v : AgentResponse) (now : ℚ) :
    WorkflowResult :=
  let success := p.success
  let psFlag : Bool :=
    if success && !i.success && !v.success then true
    else if success && i.success && !v.success then true
    else false
  { success := success && i.success && v.success
    partial_success := psFlag
    workflow_id := wid
    timestamp := now
    total_execution_time := p.execution_time + i.execution_time + v.execution_time
    agents_succeeded :=
      (if p.success then 1 else 0) + (if i.success then 1 else 0) +
        (if v.success then 1 else 0)
    agents_failed :=
      (if p.success then 0 else 1) + (if i.success then 0 else 1) +
        (if v.success then 0 else 1)
    generated_prompts :=
      if p.success then some (dictGet p.data "generated_prompt" (Val.dict [])) else none
    prompt_details :=
      if p.success then
        some (dictGet p.data "image_prompt_details" (Val.dict []),
              dictGet p.data "video_prompt_details" (Val.dict []))
      else none
    generated_images :=
      if i.success then some (dictGet i.data "generated_images" (Val.list [])) else none
    image_generation_stats :=
      if i.success then
        some (dictGet i.data "successful_count" (Val.q 0),
              dictGet i.data "failed_count" (Val.q 0),
              dictGet i.data "generation_settings" (Val.dict []))
      else none
    generated_video :=
      if v.success then some (dictGet v.data "generated_video" (Val.dict [])) else none
    video_details :=
      if v.success then some (dictGet v.data "video_details" (Val.dict [])) else none
    errors :=
      (if p.success then [] else ["Prompt generation: " ++ optStr p.error]) ++
      (if i.success then [] else ["Image generation: " ++ optStr i.error]) ++
      (if v.success then [] else ["Video generation: " ++ optStr v.error]) }

/-- The `WorkflowStatus` enum of `agents/orchestrator.py`. -/
inductive WorkflowStatus where
  | pending
  | running
  | completed
  | failed
  | partial_success
  deriving DecidableEq, Repr

/-- One entry of the `agents_executed` list of a workflow record. -/
structure StageSummary where
  agent : String
  status : String
  execution_time : ℚ
  error : Option String

/-- The mutable per-workflow tracking dictionary built by
`AgentOrchestrator._initialize_workflow`. -/
structure Workflow where
  workflow_id : String
  status : WorkflowStatus
  created_at : ℚ
  completed_at : Option ℚ
  agents_executed : List StageSummary
  current_agent : Option String
  result : Option WorkflowResult
  error : Option String

/-- `AgentOrchestrator._initialize_workflow`: a fresh pending record. -/
def initWorkflow (wid : String) (tCreate : ℚ) : Workflow :=
  { workflow_id := wid
    status := WorkflowStatus.pending
    created_at := tCreate
    completed_at := none
    agents_executed := []
    current_agent := none
    result := none
    error := none }

/-- The record mutation setting the status field to RUNNING, as
performed at the top of `_execute_workflow`. -/
def recordSetRunning (wf : Workflow) : Workflow :=
  { wf with status := WorkflowStatus.running }

/-- The mutations `_execute_workflow` performs on the tracking record
while the stages run, given the three stage responses: when the prompt
stage fails only `current_agent` has been set (the summary append is
guarded by the success check that raises first); when the prompt stage
succeeds all three stage summaries are appended (image and video
regardless of their own success) and `current_agent` ends at `None`.
These mutations touch only `agents_executed` and `current_agent`. -/
def recordStageUpdates (p i v : AgentResponse) (wf : Workflow) : Workflow :=
  if p.success then
    { wf with
      agents_executed := wf.agents_executed ++
        [ { agent := "prompt_generator", status := "completed",
            execution_time := p.execution_time, error := none },
          { agent := "image_generator",
            status := if i.success then "completed" else "failed",
            execution_time := i.execution_time,
            error := if i.success then none else i.error },
          { agent := "video_generator",
            status := if v.success then "completed" else "failed",
            execution_time := v.execution_time,
            error := if v.success then none else v.error } ]
      current_agent := none }
  else
    { wf with current_agent := some "prompt_generator" }

/-- The value/exception outcome of `_execute_workflow`: a failed prompt
stage raises (image and video are never consulted); otherwise the
compiled result is returned (image/video failures do not raise). -/
def executeOutcome (wid : String) (p i v : AgentResponse) (now : ℚ) :
    Except String WorkflowResult :=
  if p.success then Except.ok (compileWorkflowResults wid p i v now)
  else Except.error ("Prompt generation failed: " ++ optStr p.error)

/-- The result dictionary `process_product` hands back to its caller:
either the compiled result, or the error dictionary
`{success: False, workflow_id, error, timestamp}` built in the
exception handler. -/
inductive ProcessResult where
  | compiled : WorkflowResult → ProcessResult
  | errorDict : (wid : String) → (error : String) → (timestamp : ℚ) → ProcessResult

/-- Truthiness of the success key of a `process_product` return
value: the error dictionary stores an explicit `False`. -/
def ProcessResult.successFlag : ProcessResult → Bool
  | ProcessResult.compiled r => r.success
  | ProcessResult.errorDict _ _ _ => false

/-- Truthiness of the partial-success key of a `process_product`
return value: the error dictionary has no such key, and a missing key
yields `None`, which is falsy. -/
def ProcessResult.partialSuccessFlag : ProcessResult → Bool
  | ProcessResult.compiled r => r.partial_success
  | ProcessResult.errorDict _ _ _ => false

/-- Orchestrator state (`AgentOrchestrator.__init__`).  In Python the
`active_workflows` dictionary and `workflow_history` list both hold
references to the same mutable record objects, so the state is modelled
as a heap of records keyed by workflow id plus id lists standing for the
references: `historyIds` may mention an id twice exactly when the same
record object was appended to `workflow_history` twice. -/
structure OrchState where
  heap : List (String × Workflow) := []
  activeIds : List String := []
  historyIds : List String := []
  maxConcurrent : Nat := 5

/-- A fresh orchestrator: no workflows, `max_concurrent_workflows = 5`. -/
def initOrchState : OrchState := {}

/-- Look a record up in the heap by workflow id. -/
def heapGet (h : List (String × Workflow)) (wid : String) : Option Workflow :=
  match h.find? (fun x => x.1 == wid) with
  | some x => some x.2
  | none => none

/-- Write a record into the heap at a workflow id (insert or overwrite). -/
def heapSet (h : List (String × Workflow)) (wid : String) (wf : Workflow) :
    List (String × Workflow) :=
  match h with
  | [] => [(wid, wf)]
  | (k, w) :: rest =>
      if k == wid then (wid, wf) :: rest else (k, w) :: heapSet rest wid wf

/-- In-place mutation of the record object a workflow id refers to
(a no-op if the id denotes no object). -/
def heapUpdate (st : OrchState) (wid : String) (f : Workflow → Workflow) : OrchState :=
  match heapGet st.heap wid with
  | some wf => { st with heap := heapSet st.heap wid (f wf) }
  | none => st

/-- The admission step of `process_product`: the capacity check
`len(active_workflows) >= max_concurrent_workflows` raises before the
record is stored, so a rejected submission leaves the state untouched
(the freshly initialized record is dropped); an admitted submission
stores the pending record and registers the id as active. -/
def processAdmit (st : OrchState) (wid : String) (tCreate : ℚ) : Option OrchState :=
  if st.maxConcurrent ≤ st.activeIds.length then none
  else
    some { st with
           heap := heapSet st.heap wid (initWorkflow wid tCreate)
           activeIds := st.activeIds ++ [wid] }

/-- Python `str(KeyError(wid))`: the id wrapped in single quotes. -/
def keyErrorStr (wid : String) : String := "\x27" ++ wid ++ "\x27"

/-- The tail of `process_product` after `_execute_workflow` finishes,
lines 87-118 of `agents/orchestrator.py`.  On a returned result the
record object the local variable still references is mutated (status,
completion time, result) and appended to the history WHETHER OR NOT the
id is still active; `del active_workflows[wid]` then raises `KeyError`
when the id is gone, and the generic handler swallows it and returns the
error dictionary.  On a raised error the handler mutates, appends and
deletes only when the id is still active. -/
def processFinish (st : OrchState) (wid : String)
    (outcome : Except String WorkflowResult) (now : ℚ) :
    ProcessResult × OrchState :=
  match outcome with
  | Except.ok result =>
      let st1 := heapUpdate st wid (fun wf =>
        { wf with
          status := if result.success then WorkflowStatus.completed else WorkflowStatus.failed
          completed_at := some now
          result := some result })
      let st2 := { st1 with historyIds := st1.historyIds ++ [wid] }
      if st2.activeIds.contains wid then
        (ProcessResult.compiled result, { st2 with activeIds := st2.activeIds.erase wid })
      else
        (ProcessResult.errorDict wid (keyErrorStr wid) now, st2)
  | Except.error e =>
      if st.activeIds.contains wid then
        let st1 := heapUpdate st wid (fun wf =>
          { wf with
            status := WorkflowStatus.failed
            error := some e
            completed_at := some now })
        (ProcessResult.errorDict wid e now,
         { st1 with
           historyIds := st1.historyIds ++ [wid]
           activeIds := st1.activeIds.erase wid })
      else
        (ProcessResult.errorDict wid e now, st)

/-- `AgentOrchestrator.process_product` run to completion with no
interleaved operation: admission check, record registration, the three
stages (whose outcomes are the responses `p`, `i`, `v` that
`execute_with_retry` delivers), then the finishing step.  `tCreate` is
the creation-time clock reading and `now` the completion-time reading. -/
def processProduct (st : OrchState) (wid : String) (p i v : AgentResponse)
    (tCreate now : ℚ) : ProcessResult × OrchState :=
  match processAdmit st wid tCreate with
  | none =>
      (ProcessResult.errorDict wid
        "Maximum concurrent workflows reached. Please try again later." now, st)
  | some st1 =>
      let st2 := heapUpdate st1 wid
        (fun wf => recordStageUpdates p i v (recordSetRunning wf))
      processFinish st2 wid (executeOutcome wid p i v now) now

/-- `AgentOrchestrator.cancel_workflow`: only an active id is acted on —
the record object is mutated to the cancelled-terminal state, appended
to history and removed from the active set; any other id returns
`false` with the state untouched. -/
def cancelWorkflow (st : OrchState) (wid : String) (now : ℚ) : Bool × OrchState :=
  if st.activeIds.contains wid then
    let st1 := heapUpdate st wid (fun wf =>
      { wf with
        status := WorkflowStatus.failed
        error := some "Workflow cancelled by user"
        completed_at := some now })
    (true,
     { st1 with
       historyIds := st1.historyIds ++ [wid]
       activeIds := st1.activeIds.erase wid })
  else (false, st)

/-- The read-only projection `get_workflow_status` returns. -/
structure StatusProjection where
  workflow_id : String
  status : WorkflowStatus
  is_active : Bool
  deriving DecidableEq, Repr

/-- `AgentOrchestrator.get_workflow_status`: the active set is consulted
first, then the history list (matching on the workflow id of the record);
an id known to neither yields `None`. -/
def getWorkflowStatus (st : OrchState) (wid : String) : Option StatusProjection :=
  if st.activeIds.contains wid then
    (heapGet st.heap wid).map (fun wf =>
      { workflow_id := wid, status := wf.status, is_active := true })
  else if st.historyIds.contains wid then
    (heapGet st.heap wid).map (fun wf =>
      { workflow_id := wid, status := wf.status, is_active := false })
  else none

/-- `total_workflows_processed` as reported by `get_system_status`:
the length of the history list. -/
def totalWorkflowsProcessed (st : OrchState) : Nat := st.historyIds.length

/-- One entry of the `failures` list of a batch summary: items that
raised contribute a `{product_id, error}` descriptor, items whose
workflow produced an unsuccessful result contribute that result
dictionary itself. -/
inductive FailureEntry where
  | descriptor : (product_id : String) → (error : String) → FailureEntry
  | resultDict : ProcessResult → FailureEntry

/-- The result-classification loop of `AgentOrchestrator.process_batch`
(lines 410-419).  Each batch item is the pair of its product id and the
outcome `asyncio.gather(..., return_exceptions=True)` collected for it:
a captured exception or the result dictionary `process_product`
returned.  An item is successful exactly when its result reports
success or partial success. -/
def batchPartition :
    List (String × Except String ProcessResult) →
      List ProcessResult × List FailureEntry
  | [] => ([], [])
  | (pid, item) :: rest =>
      let (s, f) := batchPartition rest
      match item with
      | Except.error e => (s, FailureEntry.descriptor pid e :: f)
      | Except.ok r =>
          if r.successFlag || r.partialSuccessFlag then (r :: s, f)
          else (s, FailureEntry.resultDict r :: f)

/-- The batch summary dictionary `process_batch` returns. -/
structure BatchSummary where
  batch_id : String
  total_products : Nat
  successful_count : Nat
  failed_count : Nat
  success_rate : ℚ
  results : List ProcessResult
  failures : List FailureEntry
  timestamp : ℚ

/-- `AgentOrchestrator.process_batch` from the point where the gathered
per-item outcomes are in hand: classify every item, then build the
summary.  Building the summary computes
`len(successful_results) / len(product_inputs) * 100`, which raises
`ZeroDivisionError` when the batch is empty — modelled as the `error`
branch. -/
def processBatch (items : List (String × Except String ProcessResult))
    (batchId : String) (now : ℚ) : Except String BatchSummary :=
  let s := (batchPartition items).1
  let f := (batchPartition items).2
  if items.length = 0 then Except.error "division by zero"
  else
    Except.ok
      { batch_id := batchId
        total_products := items.length
        successful_count := s.length
        failed_count := f.length
        success_rate := (s.length : ℚ) / (items.length : ℚ) * 100
        results := s
        failures := f
        timestamp := now }

/-- A successful prompt-stage response with a typical payload. -/
def promptOk : AgentResponse :=
  { success := true
    data := [("generated_prompt", Val.dict [("image_prompt", Val.s "X")])] }

/-- A failed prompt-stage response. -/
def promptDown : AgentResponse :=
  { success := false, error := some "LLM unavailable" }

/-- A minimal successful stage response. -/
def stageOk : AgentResponse := { success := true }

/-- A stage response explicitly marked unsuccessful (returned, not raised). -/
def stageRefusal : AgentResponse := { success := false, error := some "upstream refused" }

/-- An orchestrator already running five workflows: the admission
ceiling of `max_concurrent_workflows = 5` is exactly reached. -/
def fullState : OrchState :=
  { activeIds := ["a1", "a2", "a3", "a4", "a5"] }

/-- Claim C1 counterexample: with prompt succeeding, image failing and
video succeeding, the compiled `partial_success` flag is `false` — the
source sets it only in the two branches where the video stage failed,
so the triple (true, false, true) that the claim singles out as
partially successful is classified as not partial. -/
theorem c1_partial_success_cex :
    promptOk.success = true ∧ stageRefusal.success = false ∧ stageOk.success = true ∧
    (compileWorkflowResults "w1" promptOk stageRefusal stageOk 0).partial_success = false :=
  ⟨rfl, rfl, rfl, rfl⟩

/-- Claim C1 (amended): for every triple of stage outcomes,
`partial_success` equals prompt.success AND NOT video.success — the
image outcome is irrelevant, so the spec formula disagrees with the code
exactly on the triple (prompt ok, image failed, video ok). -/
theorem c1_partial_success_formula (wid : String) (p i v : AgentResponse) (now : ℚ) :
    (compileWorkflowResults wid p i v now).partial_success = (p.success && !v.success) := by
  cases hp : p.success <;> cases hi : i.success <;> cases hv : v.success <;>
    simp [compileWorkflowResults, hp, hi, hv]

/-- Helper for C2: starting from any attempt index, if the underlying
call raises on every attempt before the last one in range and then
returns a successful response (all with zero own duration), the loop
returns that response stamped with the accumulated backoff sleeps. -/
theorem retryLoop_raise_then_ok (okResp : AgentResponse) (ag : AgentType) (mr : Nat)
    (start : ℚ) (hok : okResp.success = true) :
    ∀ (fuel attempt : Nat) (clock : ℚ) (k : Nat), k = attempt + fuel →
      retryLoop (procRaiseThenOk okResp k) ag mr start attempt (fuel + 1) clock =
        { okResp with execution_time := clock + sleepSum attempt fuel - start,
                      agent_type := some ag } := by
  intro fuel
  induction fuel with
  | zero =>
      intro attempt clock k hk
      subst hk
      simp [retryLoop, procRaiseThenOk, sleepSum, hok]
  | succ f ih =>
      intro attempt clock k hk
      subst hk
      have hlt : attempt < attempt + (f + 1) := by omega
      have hidx : attempt + (f + 1) = (attempt + 1) + f := by omega
      rw [retryLoop]
      simp only [procRaiseThenOk, if_pos hlt]
      simp only [Nat.succ_ne_zero, if_false]
      rw [ih (attempt + 1) (clock + 0 + 2 ^ attempt) (attempt + (f + 1)) hidx]
      simp [sleepSum]
      ring

/-- Helper for C2: if the underlying call returns unsuccessful responses
(without raising) on every attempt before the last one in range and then
a successful one (all with zero own duration), the loop returns that
response with zero elapsed time: no backoff sleep is ever taken on the
returned-unsuccessful path. -/
theorem retryLoop_fail_then_ok (failResp okResp : AgentResponse) (ag : AgentType)
    (mr : Nat) (start : ℚ) (hfail : failResp.success = false) (hok : okResp.success = true) :
    ∀ (fuel attempt : Nat) (clock : ℚ) (k : Nat), k = attempt + fuel →
      retryLoop (procFailThenOk failResp okResp k) ag mr start attempt (fuel + 1) clock =
        { okResp with execution_time := clock - start, agent_type := some ag } := by
  intro fuel
  induction fuel with
  | zero =>
      intro attempt clock k hk
      subst hk
      simp [retryLoop, procFailThenOk, hok]
  | succ f ih =>
      intro attempt clock k hk
      subst hk
      have hlt : attempt < attempt + (f + 1) := by omega
      have hidx : attempt + (f + 1) = (attempt + 1) + f := by omega
      rw [retryLoop]
      simp only [procFailThenOk, if_pos hlt]
      simp only [hfail]
      rw [ih (attempt + 1) (clock + 0) (attempt + (f + 1)) hidx]
      simp

/-- Helper for C2: the recursive backoff total equals the geometric sum
of the per-attempt delays. -/
theorem sleepSum_eq_geom (fuel : Nat) : ∀ a : Nat,
    sleepSum a fuel = ∑ j ∈ Finset.range fuel, (2 : ℚ) ^ (a + j) := by
  induction fuel with
  | zero => intro a; simp [sleepSum]
  | succ f ih =>
      intro a
      rw [Finset.sum_range_succ']
      have hcongr : ∀ j ∈ Finset.range f,
          (2 : ℚ) ^ (a + (j + 1)) = (2 : ℚ) ^ ((a + 1) + j) := by
        intro j _
        congr 1
        omega
      rw [Finset.sum_congr rfl hcongr]
      simp [sleepSum, ih (a + 1)]
      ring

/-- Claim C2 counterexample: a stage whose underlying call RETURNS an
unsuccessful outcome (rather than raising) on the first two of three
attempts and then succeeds comes back successful with elapsed time
strictly below the backoff total `2 ^ 0 + 2 ^ 1` the claim requires —
no sleep separates returned-unsuccessful attempts, because the sleep
statement sits inside the exception handler only. -/
theorem c2_no_sleep_on_returned_failure_cex :
    (executeWithRetry (procFailThenOk stageRefusal stageOk 2)
        AgentType.prompt_generator 3 0).success = true ∧
    (executeWithRetry (procFailThenOk stageRefusal stageOk 2)
        AgentType.prompt_generator 3 0).execution_time < 2 ^ 0 + 2 ^ 1 := by
  constructor
  · rfl
  · norm_num [executeWithRetry, retryLoop, procFailThenOk, stageRefusal, stageOk]

/-- Claim C2 (amended): the backoff sleep of `2 ^ k` time units follows
only RAISED non-final failed attempts; an outcome returned as
unsuccessful is retried immediately with no sleep.  Hence a stage whose
call raises on exactly the first `max_retries - 1` attempts and then
succeeds returns a success outcome whose elapsed time equals (so is at
least) the sum of the backoff delays of the failed attempts, while a
stage whose call merely returns unsuccessful outcomes on those attempts
accrues no backoff delay at all. -/
theorem c2_backoff_elapsed (okResp failResp : AgentResponse) (ag : AgentType) (m : Nat)
    (hm : 1 ≤ m) (hok : okResp.success = true) (hfail : failResp.success = false) :
    ((executeWithRetry (procRaiseThenOk okResp (m - 1)) ag m 0).success = true ∧
     (executeWithRetry (procRaiseThenOk okResp (m - 1)) ag m 0).execution_time =
       ∑ j ∈ Finset.range (m - 1), (2 : ℚ) ^ j) ∧
    ((executeWithRetry (procFailThenOk failResp okResp (m - 1)) ag m 0).success = true ∧
     (executeWithRetry (procFailThenOk failResp okResp (m - 1)) ag m 0).execution_time = 0) := by
  obtain ⟨k, rfl⟩ : ∃ k, m = k + 1 := ⟨m - 1, (Nat.succ_pred_eq_of_pos hm).symm⟩
  have hk : k + 1 - 1 = k := by omega
  rw [hk]
  have h1 := retryLoop_raise_then_ok okResp ag (k + 1) 0 hok k 0 0 k (by omega)
  have h2 := retryLoop_fail_then_ok failResp okResp ag (k + 1) 0 hfail hok k 0 0 k (by omega)
  rw [executeWithRetry, h1, executeWithRetry, h2]
  refine ⟨⟨hok, ?_⟩, hok, by simp⟩
  simp [sleepSum_eq_geom k 0]

/-- Witness for C2 at `max_retries = 3`: two raised failures then
success yields elapsed time `2 ^ 0 + 2 ^ 1`. -/
theorem c2_backoff_elapsed_witness :
    (executeWithRetry (procRaiseThenOk stageOk 2)
        AgentType.prompt_generator 3 0).execution_time =
      ∑ j ∈ Finset.range 2, (2 : ℚ) ^ j :=
  (c2_backoff_elapsed stageOk stageRefusal AgentType.prompt_generator 3
    (by decide) rfl rfl).1.2

/-- Helper: writing a record into the heap at an id and reading that id
back yields the written record. -/
theorem heapGet_heapSet_same (h : List (String × Workflow)) (wid : String) (wf : Workflow) :
    heapGet (heapSet h wid wf) wid = some wf := by
  induction h with
  | nil => simp [heapSet, heapGet]
  | cons x rest ih =>
      rcases x with ⟨k, w⟩
      by_cases hk : k == wid
      · simp [heapSet, hk, heapGet]
      · simp only [heapSet, hk, if_false, Bool.false_eq_true]
        simp [heapGet, hk] at ih ⊢
        exact ih

/-- Helper: two consecutive heap writes at the same id collapse to the
second write. -/
theorem heapSet_heapSet (h : List (String × Workflow)) (wid : String) (a b : Workflow) :
    heapSet (heapSet h wid a) wid b = heapSet h wid b := by
  induction h with
  | nil => simp [heapSet]
  | cons x rest ih =>
      rcases x with ⟨k, w⟩
      by_cases hk : k == wid
      · simp [heapSet, hk]
      · simp only [heapSet, hk, if_false, Bool.false_eq_true]
        rw [ih]

/-- Claim C3 (amended): an admitted workflow whose prompt stage fails
returns a failure result (success flag false, partial-success flag
falsy), the outcome and final state do not depend on the image or video
responses (those stages are never attempted), the record moves to
history, and the recorded count of executed stages in that record equals
0 — not 1 as claimed, because the source appends the prompt summary only
after the success check, which raises first on failure. -/
theorem c3_prompt_failure_short_circuit (st : OrchState) (wid : String)
    (p i v : AgentResponse) (tCreate now : ℚ)
    (hcap : st.activeIds.length < st.maxConcurrent)
    (hp : p.success = false) :
    (processProduct st wid p i v tCreate now).1.successFlag = false ∧
    (processProduct st wid p i v tCreate now).1.partialSuccessFlag = false ∧
    (processProduct st wid p i v tCreate now).2.historyIds = st.historyIds ++ [wid] ∧
    (heapGet (processProduct st wid p i v tCreate now).2.heap wid).map
        (fun wf => wf.agents_executed.length) = some 0 ∧
    (∀ i2 v2 : AgentResponse, processProduct st wid p i2 v2 tCreate now =
        processProduct st wid p i v tCreate now) := by
  have hnc : ¬ (st.maxConcurrent ≤ st.activeIds.length) := Nat.not_le.mpr hcap
  refine ⟨?_, ?_, ?_, ?_, ?_⟩ <;>
    simp [processProduct, processAdmit, hnc, processFinish, executeOutcome, hp,
      heapUpdate, heapGet_heapSet_same, heapSet_heapSet, recordStageUpdates,
      recordSetRunning, ProcessResult.successFlag, ProcessResult.partialSuccessFlag,
      initWorkflow]

/-- Witness for C3: a fresh orchestrator processing a product whose
prompt stage fails moves exactly that workflow into history. -/
theorem c3_prompt_failure_witness :
    (processProduct initOrchState "w1" promptDown stageOk stageOk 0 1).2.historyIds =
      initOrchState.historyIds ++ ["w1"] :=
  (c3_prompt_failure_short_circuit initOrchState "w1" promptDown stageOk stageOk 0 1
    (by decide) rfl).2.2.1

/-- Claim C3 counterexample: after a prompt-stage failure the history
record carries an empty `agents_executed` list, so the recorded count of
executed stages is 0, not 1 as the claim states. -/
theorem c3_stage_count_cex :
    ¬ ((heapGet (processProduct initOrchState "w1" promptDown stageOk stageOk 0 1).2.heap
          "w1").map (fun wf => wf.agents_executed.length) = some 1) := by
  decide

/-- Helper for C4: any failed response the retry loop produces carries
an error message. -/
theorem retryLoop_failure_has_error (proc : Nat → ProcResult × ℚ) (ag : AgentType)
    (mr : Nat) (start : ℚ) :
    ∀ (fuel attempt : Nat) (clock : ℚ),
      (retryLoop proc ag mr start attempt fuel clock).success = false →
      (retryLoop proc ag mr start attempt fuel clock).error.isSome = true := by
  intro fuel
  induction fuel with
  | zero =>
      intro attempt clock _
      simp [retryLoop]
  | succ f ih =>
      intro attempt clock
      rw [retryLoop]
      rcases hpc : proc attempt with ⟨pr, dur⟩
      cases pr with
      | ok resp =>
          by_cases hs : resp.success
          · simp [hs]
          · simp only [hs, Bool.false_eq_true, if_false]
            exact ih (attempt + 1) (clock + dur)
      | exn e =>
          by_cases hz : f = 0
          · simp [hz]
          · simp only [hz, if_false]
            exact ih (attempt + 1) (clock + dur + 2 ^ attempt)

/-- Claim C4: `execute_with_retry` is a total function into
`AgentResponse` — in this embedding every raised failure of the
underlying call is consumed by the loop, never re-raised — and whenever
the returned outcome is unsuccessful it carries an error message. -/
theorem c4_retry_failures_carry_error (proc : Nat → ProcResult × ℚ) (ag : AgentType)
    (m : Nat) (start : ℚ) (hm : 1 ≤ m)
    (hfailed : (executeWithRetry proc ag m start).success = false) :
    (executeWithRetry proc ag m start).error.isSome = true :=
  retryLoop_failure_has_error proc ag m start m 0 start hfailed

/-- Witness for C4: a stage that always raises yields, after one
attempt, a failed response carrying an error message. -/
theorem c4_retry_failures_carry_error_witness :
    (executeWithRetry (fun _ => (ProcResult.exn "connection reset", 0))
        AgentType.prompt_generator 1 0).error.isSome = true :=
  c4_retry_failures_carry_error (fun _ => (ProcResult.exn "connection reset", 0))
    AgentType.prompt_generator 1 0 (by decide) rfl

/-- Claim C5 (code bug): an empty batch does not yield a summary with a
success rate of 0 — building the summary divides by the zero item count
and raises `ZeroDivisionError`, which propagates to the caller of
`process_batch`.  On a non-empty batch the rate is
successful divided by total times 100, as the one-item check shows. -/
theorem c5_empty_batch_division_by_zero :
    processBatch [] "batch1" 0 = Except.error "division by zero" ∧
    (processBatch
        [("p1", Except.ok (ProcessResult.compiled
            (compileWorkflowResults "w1" promptOk stageOk stageOk 0)))] "batch1" 0).map
      BatchSummary.success_rate = Except.ok 100 := by
  refine ⟨rfl, ?_⟩
  norm_num [processBatch, batchPartition, ProcessResult.successFlag,
    compileWorkflowResults, promptOk, stageOk, Except.map]

/-- Helper for C6: the classification loop is total — every item lands
in exactly one of the two output lists. -/
theorem batchPartition_length (items : List (String × Except String ProcessResult)) :
    (batchPartition items).1.length + (batchPartition items).2.length = items.length := by
  induction items with
  | nil => simp [batchPartition]
  | cons x rest ih =>
      rcases x with ⟨pid, item⟩
      obtain ⟨s, f, hbp⟩ : ∃ s f, batchPartition rest = (s, f) := ⟨_, _, rfl⟩
      simp only [hbp] at ih
      cases item with
      | error e => simp [batchPartition, hbp]; omega
      | ok r =>
          by_cases hs : (r.successFlag || r.partialSuccessFlag) = true
          · simp [batchPartition, hbp, hs]; omega
          · simp [batchPartition, hbp, hs]; omega

/-- Claim C6: batch items are isolated and fully classified — the two
output lists cover every item (successful plus failed counts equal the
total, so no raising item aborts the others), a raised item appears as a
failure descriptor carrying its product id, a returned result counts as
successful exactly when it reports overall or partial success, and every
summary the coordinator returns satisfies
successful_count + failed_count = total_products. -/
theorem c6_batch_isolation_partition (items : List (String × Except String ProcessResult)) :
    ((batchPartition items).1.length + (batchPartition items).2.length = items.length) ∧
    (∀ pid e, (pid, (Except.error e : Except String ProcessResult)) ∈ items →
        FailureEntry.descriptor pid e ∈ (batchPartition items).2) ∧
    (∀ pid r, (pid, (Except.ok r : Except String ProcessResult)) ∈ items →
        ((r.successFlag || r.partialSuccessFlag) = true → r ∈ (batchPartition items).1) ∧
        ((r.successFlag || r.partialSuccessFlag) = false →
            FailureEntry.resultDict r ∈ (batchPartition items).2)) ∧
    (∀ bid now sm, processBatch items bid now = Except.ok sm →
        sm.successful_count + sm.failed_count = sm.total_products) := by
  refine ⟨batchPartition_length items, ?_, ?_, ?_⟩
  · intro pid e hmem
    induction items with
    | nil => simp at hmem
    | cons x rest ih =>
        rcases x with ⟨pid2, item⟩
        obtain ⟨s, f, hbp⟩ : ∃ s f, batchPartition rest = (s, f) := ⟨_, _, rfl⟩
        rcases List.mem_cons.mp hmem with heq | htail
        · cases heq
          simp [batchPartition, hbp]
        · have hrec := ih htail
          rw [hbp] at hrec
          cases item with
          | error e2 =>
              have hshape : (batchPartition
                  ((pid2, (Except.error e2 : Except String ProcessResult)) :: rest)).2 =
                  FailureEntry.descriptor pid2 e2 :: f := by simp [batchPartition, hbp]
              rw [hshape]
              exact List.mem_cons_of_mem _ hrec
          | ok r =>
              by_cases hs : (r.successFlag || r.partialSuccessFlag) = true
              · have hshape : (batchPartition
                    ((pid2, (Except.ok r : Except String ProcessResult)) :: rest)).2 = f := by
                  simp [batchPartition, hbp, hs]
                rw [hshape]; exact hrec
              · have hshape : (batchPartition
                    ((pid2, (Except.ok r : Except String ProcessResult)) :: rest)).2 =
                    FailureEntry.resultDict r :: f := by simp [batchPartition, hbp, hs]
                rw [hshape]
                exact List.mem_cons_of_mem _ hrec
  · intro pid r hmem
    induction items with
    | nil => simp at hmem
    | cons x rest ih =>
        rcases x with ⟨pid2, item⟩
        obtain ⟨s, f, hbp⟩ : ∃ s f, batchPartition rest = (s, f) := ⟨_, _, rfl⟩
        rcases List.mem_cons.mp hmem with heq | htail
        · cases heq
          refine ⟨fun hs => ?_, fun hs => ?_⟩
          · simp [batchPartition, hbp, hs]
          · simp [batchPartition, hbp, hs]
        · have hrec := ih htail
          rw [hbp] at hrec
          cases item with
          | error e2 =>
              have hshape2 : (batchPartition
                  ((pid2, (Except.error e2 : Except String ProcessResult)) :: rest)).2 =
                  FailureEntry.descriptor pid2 e2 :: f := by simp [batchPartition, hbp]
              have hshape1 : (batchPartition
                  ((pid2, (Except.error e2 : Except String ProcessResult)) :: rest)).1 = s := by
                simp [batchPartition, hbp]
              refine ⟨fun hs => ?_, fun hs => ?_⟩
              · rw [hshape1]; exact hrec.1 hs
              · rw [hshape2]; exact List.mem_cons_of_mem _ (hrec.2 hs)
          | ok r2 =>
              by_cases hs2 : (r2.successFlag || r2.partialSuccessFlag) = true
              · have hshape1 : (batchPartition
                    ((pid2, (Except.ok r2 : Except String ProcessResult)) :: rest)).1 =
                    r2 :: s := by simp [batchPartition, hbp, hs2]
                have hshape2 : (batchPartition
                    ((pid2, (Except.ok r2 : Except String ProcessResult)) :: rest)).2 = f := by
                  simp [batchPartition, hbp, hs2]
                refine ⟨fun hs => ?_, fun hs => ?_⟩
                · rw [hshape1]; exact List.mem_cons_of_mem _ (hrec.1 hs)
                · rw [hshape2]; exact hrec.2 hs
              · have hshape1 : (batchPartition
                    ((pid2, (Except.ok r2 : Except String ProcessResult)) :: rest)).1 = s := by
                  simp [batchPartition, hbp, hs2]
                have hshape2 : (batchPartition
                    ((pid2, (Except.ok r2 : Except String ProcessResult)) :: rest)).2 =
                    FailureEntry.resultDict r2 :: f := by simp [batchPartition, hbp, hs2]
                refine ⟨fun hs => ?_, fun hs => ?_⟩
                · rw [hshape1]; exact hrec.1 hs
                · rw [hshape2]; exact List.mem_cons_of_mem _ (hrec.2 hs)
  · intro bid now sm h
    rw [processBatch] at h
    by_cases hlen : items.length = 0
    · simp [hlen] at h
    · simp only [hlen, if_false] at h
      cases h
      simpa using batchPartition_length items

/-- Witness for C6: in a two-item batch whose first item raised, the
failure descriptor with that items product id appears among the
failures. -/
theorem c6_batch_isolation_witness :
    FailureEntry.descriptor "p1" "boom" ∈
      (batchPartition
        [("p1", Except.error "boom"),
         ("p2", Except.ok (ProcessResult.compiled
            (compileWorkflowResults "w2" promptOk stageOk stageOk 0)))]).2 :=
  (c6_batch_isolation_partition
    [("p1", Except.error "boom"),
     ("p2", Except.ok (ProcessResult.compiled
        (compileWorkflowResults "w2" promptOk stageOk stageOk 0)))]).2.1
    "p1" "boom" (by simp)

/-- Claim C7: a submission arriving when the number of active workflows
has reached the ceiling is rejected immediately — the caller receives
the capacity error dictionary, the orchestrator state is untouched (so
no workflow enters the Running state and nothing is queued) — and the
default ceiling of a fresh orchestrator is 5. -/
theorem c7_capacity_rejection (st : OrchState) (wid : String) (p i v : AgentResponse)
    (tCreate now : ℚ) (hcap : st.maxConcurrent ≤ st.activeIds.length) :
    processProduct st wid p i v tCreate now =
      (ProcessResult.errorDict wid
        "Maximum concurrent workflows reached. Please try again later." now, st) ∧
    initOrchState.maxConcurrent = 5 := by
  refine ⟨?_, rfl⟩
  simp [processProduct, processAdmit, hcap]

/-- Witness for C7: an orchestrator with five active workflows rejects
the sixth submission and keeps its state. -/
theorem c7_capacity_rejection_witness :
    processProduct fullState "w6" promptOk stageOk stageOk 0 1 =
      (ProcessResult.errorDict "w6"
        "Maximum concurrent workflows reached. Please try again later." 1, fullState) :=
  (c7_capacity_rejection fullState "w6" promptOk stageOk stageOk 0 1 (by decide)).1

/-- Claim C8 counterexample: two calls of the result compiler with
byte-identical stage outcomes but different wall-clock readings produce
different result objects — the compiler embeds the current time in the
timestamp field, so the calls are not byte-equal. -/
theorem c8_timestamp_cex :
    compileWorkflowResults "w1" promptOk stageOk stageOk 0 ≠
      compileWorkflowResults "w1" promptOk stageOk stageOk 1 := by
  intro h
  have ht := congrArg WorkflowResult.timestamp h
  norm_num [compileWorkflowResults] at ht

/-- Claim C8 (amended): the result compiler is deterministic up to the
embedded timestamp — two calls with identical stage outcomes agree on
every field except possibly `timestamp`, and the results are equal as a
whole exactly when the two clock readings coincide. -/
theorem c8_compiler_deterministic_up_to_timestamp (wid : String) (p i v : AgentResponse)
    (t1 t2 : ℚ) :
    ({ compileWorkflowResults wid p i v t1 with timestamp := 0 } =
      { compileWorkflowResults wid p i v t2 with timestamp := 0 }) ∧
    (compileWorkflowResults wid p i v t1 = compileWorkflowResults wid p i v t2 ↔ t1 = t2) := by
  refine ⟨rfl, ?_, ?_⟩
  · intro h
    exact congrArg WorkflowResult.timestamp h
  · intro h
    rw [h]

/-- The state right after a submission is admitted on a fresh
orchestrator: the pending record is on the heap and its id is active. -/
def raceSt1 : OrchState := (processAdmit initOrchState "w1" 0).getD initOrchState

/-- The executing task has set the record to Running and is now awaiting
its stages. -/
def raceSt2 : OrchState := heapUpdate raceSt1 "w1" recordSetRunning

/-- A cancellation request lands while the stage work is in flight. -/
def raceCancel : Bool × OrchState := cancelWorkflow raceSt2 "w1" 1

/-- The in-flight stages finish after the cancellation; their record
mutations (stage summaries, current-agent field) land on the record
object that cancellation already moved into history.  These mutations
commute with the cancellation field writes, so applying them here gives
the record state the resumed task observes. -/
def raceSt4 : OrchState :=
  heapUpdate raceCancel.2 "w1" (recordStageUpdates promptOk stageOk stageOk)

/-- The suspended `process_product` task resumes with the successful
workflow outcome and runs its finishing step. -/
def raceFinal : ProcessResult × OrchState :=
  processFinish raceSt4 "w1" (executeOutcome "w1" promptOk stageOk stageOk 2) 2

/-- Claim C9 (code bug, evaluated at the failing interleaving): after
cancellation has moved the record to history (status failed, cancel
error recorded, history holds the id once), the resumed task mutates
that same record object again — its status is overwritten to completed
and the stage result attached while the cancellation error text is still
in place — and appends it to history a second time; the subsequent
active-set delete raises a KeyError that the generic handler converts
into an error dictionary whose error text is just the quoted workflow
id. -/
theorem c9_cancel_race_mutates_history_record :
    (processAdmit initOrchState "w1" 0).isSome = true ∧
    raceCancel.1 = true ∧
    ((heapGet raceCancel.2.heap "w1").map (fun wf => (wf.status, wf.error)) =
        some (WorkflowStatus.failed, some "Workflow cancelled by user")) ∧
    raceCancel.2.historyIds = ["w1"] ∧
    raceFinal.2.historyIds = ["w1", "w1"] ∧
    ((heapGet raceFinal.2.heap "w1").map (fun wf => (wf.status, wf.error, wf.result.isSome)) =
        some (WorkflowStatus.completed, some "Workflow cancelled by user", true)) ∧
    raceFinal.1 = ProcessResult.errorDict "w1" (keyErrorStr "w1") 2 :=
  ⟨rfl, rfl, rfl, rfl, rfl, rfl, rfl⟩

/-- Claim C10: a capacity rejection leaves the orchestrator completely
unchanged — for a workflow id not already known to the registry, a
status lookup of the rejected id finds nothing and the total processed
count is unaffected. -/
theorem c10_rejection_state_unchanged (st : OrchState) (wid : String)
    (p i v : AgentResponse) (tCreate now : ℚ)
    (hcap : st.maxConcurrent ≤ st.activeIds.length)
    (hfa : st.activeIds.contains wid = false)
    (hfh : st.historyIds.contains wid = false) :
    (processProduct st wid p i v tCreate now).2 = st ∧
    getWorkflowStatus (processProduct st wid p i v tCreate now).2 wid = none ∧
    totalWorkflowsProcessed (processProduct st wid p i v tCreate now).2 =
      totalWorkflowsProcessed st := by
  have hst : (processProduct st wid p i v tCreate now).2 = st := by
    simp [processProduct, processAdmit, hcap]
  refine ⟨hst, ?_, by rw [hst]⟩
  rw [hst]
  have hfa2 : wid ∉ st.activeIds := by simpa using hfa
  have hfh2 : wid ∉ st.historyIds := by simpa using hfh
  simp [getWorkflowStatus, hfa2, hfh2]

/-- Witness for C10: the id of a rejected submission resolves to no
status on the unchanged full orchestrator. -/
theorem c10_rejection_state_unchanged_witness :
    getWorkflowStatus (processProduct fullState "w7" promptOk stageOk stageOk 0 1).2 "w7" =
      none :=
  (c10_rejection_state_unchanged fullState "w7" promptOk stageOk stageOk 0 1
    (by decide) (by decide) (by decide)).2.1
